import Mathlib

/-!
Verification of the LLMSafeSpace Python sandbox runtime layer.

Shallow embedding of:
- `src/runtimes/python/tools/python-security-wrapper.py` (wrapper entry point:
  policy load, `RestrictedImportFinder.find_spec`, `set_resource_limits`,
  the `__main__` dispatch over inline / script / interactive modes);
- `src/runtimes/python/security/python/sitecustomize.py` (the same finder plus
  the `os`-function disabling block).

Stateful effects (raising ImportError, printing a warning line to stderr,
registering the meta-path hook, applying rlimits, executing untrusted code,
exiting) are made explicit as outcome values and event traces.
-/

namespace LLMSafeSpace

/-- The parsed content of `/etc/llmsafespace/python/restricted_modules.json`:
a document with two collections of capability identifiers, `blocked` and
`warning` (wrapper line 10, sitecustomize line 8: `RESTRICTED_MODULES`). -/
structure Policy where
  blocked : List String
  warning : List String
  deriving DecidableEq, Repr

/-- The observable outcome of one call to `RestrictedImportFinder.find_spec`
(wrapper lines 29-36, sitecustomize lines 14-21):
- `denied`: the call raises `ImportError` (no value is returned);
- `allowWarn`: the call prints one `WARNING: Importing ...` line to stderr
  and returns `None` (import resolution is delegated to the normal machinery);
- `allow`: the call returns `None` with no output. -/
inductive FindSpecOutcome where
  | denied
  | allowWarn
  | allow
  deriving DecidableEq, Repr

/-- `RestrictedImportFinder.find_spec(self, fullname, path, target=None)`.
The finder stores the policy at construction (`self.restricted_modules`) and
never mutates it; `path` and `target` are unused by the source body, so the
embedding takes only the policy and `fullname`:

    if fullname in self.restricted_modules['blocked']:
        raise ImportError(...)
    if fullname in self.restricted_modules['warning']:
        print("WARNING: ...", file=sys.stderr)
    return None
-/
def find_spec (p : Policy) (fullname : String) : FindSpecOutcome :=
  if fullname ∈ p.blocked then .denied
  else if fullname ∈ p.warning then .allowWarn
  else .allow

/-- A whole process lifetime of finder requests: the finder object keeps no
per-call state (its only field is the immutable policy), so a sequence of
`find_spec` calls is the pointwise application of `find_spec`. -/
def runRequests (p : Policy) (reqs : List String) : List FindSpecOutcome :=
  reqs.map (find_spec p)

/-- Number of warning audit records printed to stderr over a request
sequence: one line is printed exactly at each `allowWarn` outcome. -/
def auditRecordCount (p : Policy) (reqs : List String) : Nat :=
  ((runRequests p reqs).filter (fun o => o = .allowWarn)).length

/-- A policy source document as seen by the loading code
(`json.load(open('/etc/llmsafespace/python/restricted_modules.json'))`,
wrapper lines 9-10, sitecustomize lines 7-8): either unreadable/invalid
JSON (the call raises) or a well-formed document carrying the two lists. -/
inductive PolicySource where
  | unreadable
  | doc (p : Policy)
  deriving DecidableEq, Repr

/-- The load step of both source files. `json.load` fails on an unreadable
or malformed source and otherwise returns the parsed document unchanged:
no field validation, and in particular no check that `blocked` and
`warning` are disjoint, is performed anywhere in either file. -/
def loadRestrictedModules : PolicySource → Except String Policy
  | .unreadable => .error "PolicyLoadError"
  | .doc p => .ok p

/-- A policy whose `blocked` and `warning` collections overlap on os. -/
def overlapPolicy : Policy := ⟨["os"], ["os"]⟩

/-- A soft/hard rlimit pair as passed to `resource.setrlimit`. -/
structure RLimitPair where
  soft : Nat
  hard : Nat
  deriving DecidableEq, Repr

/-- The three `resource.setrlimit` calls of `set_resource_limits` (wrapper
lines 13-20), in source order, each with its (soft, hard) pair:

    resource.setrlimit(resource.RLIMIT_CPU, (300, 300))
    resource.setrlimit(resource.RLIMIT_AS, (1024 * 1024 * 1024, 1024 * 1024 * 1024))
    resource.setrlimit(resource.RLIMIT_FSIZE, (100 * 1024 * 1024, 100 * 1024 * 1024))

The surrounding try/except (lines 14, 21-22), which turns any failure into
a stderr warning and continues, is modelled by the `applyLimits` event of
`wrapperRun` below. -/
def set_resource_limits : List (String × RLimitPair) :=
  [("RLIMIT_CPU", ⟨300, 300⟩),
   ("RLIMIT_AS", ⟨1024 * 1024 * 1024, 1024 * 1024 * 1024⟩),
   ("RLIMIT_FSIZE", ⟨100 * 1024 * 1024, 100 * 1024 * 1024⟩)]

/-- What kind of untrusted code a wrapper run executes. -/
inductive CodeSource where
  | inline (code : String)
  | script (path : String)
  | interactive
  deriving DecidableEq, Repr

/-- Observable events of one run of the wrapper process, in order:
- `policyLoad`: module top level reads and parses the policy file (line 9);
- `gateInstall`: `sys.meta_path.insert(0, RestrictedImportFinder(...))`
  (line 39);
- `applyLimits ok`: the `set_resource_limits()` call (line 42); `ok = false`
  means the setrlimit calls raised, the except clause printed
  `Warning: Could not set resource limits` to stderr, and control returned
  normally;
- `execUntrusted s`: control transfers to untrusted code from source `s`
  (line 50 `exec(sys.argv[2])`, line 62 `exec(code, ...)`, or line 69
  `code.interact(...)`);
- `printToStderr`: one of the wrapper's own error messages (line 52 or 64);
- `exitCode n`: `sys.exit(n)` (line 53 or 65). -/
inductive Event where
  | policyLoad
  | gateInstall
  | applyLimits (ok : Bool)
  | execUntrusted (s : CodeSource)
  | printToStderr
  | exitCode (n : Nat)
  deriving DecidableEq, Repr

/-- The event trace of one wrapper run (wrapper lines 9, 39, 42, 45-69).
`argvTail` is `sys.argv[1:]`; `limOk` is whether the three setrlimit calls
succeed; `scriptExists` is whether `open(script_path, 'rb')` succeeds (the
`except FileNotFoundError` branch fires exactly when it does not; the same
handler would also catch a FileNotFoundError raised by the script body
itself, a case outside this model). Policy load, gate registration and
limit application run at module top level, before the argv dispatch. -/
def wrapperRun (argvTail : List String) (limOk : Bool)
    (scriptExists : Bool) : List Event :=
  [.policyLoad, .gateInstall, .applyLimits limOk] ++
  match argvTail with
  | [] => [.execUntrusted .interactive]
  | a1 :: rest =>
    if a1 = "-c" then
      match rest with
      | [] => [.printToStderr, .exitCode 1]
      | c :: _ => [.execUntrusted (.inline c)]
    else
      if scriptExists then [.execUntrusted (.script a1)]
      else [.printToStderr, .exitCode 1]

/-- The untrusted-code-execution events of a trace. -/
def execEvents (t : List Event) : List Event :=
  t.filter (fun e => match e with | .execUntrusted _ => true | _ => false)

/-- The outcome of `exec`-ing an untrusted inline snippet under the wrapper
(line 50, no surrounding try/except):
- `success`: the snippet returns normally;
- `policyViolation`: the snippet dies on the `ImportError` raised by the
  gate for a blocked capability (claim C1), uncaught by the wrapper;
- `runtimeError`: the snippet dies on any other uncaught exception. -/
inductive ExecOutcome where
  | success
  | policyViolation
  | runtimeError
  deriving DecidableEq, Repr

/-- The process exit code in inline-snippet mode as a function of the
snippet's outcome: the wrapper wraps `exec(sys.argv[2])` in no handler, so
the interpreter exits 0 on normal return and 1 on any uncaught exception —
the `ImportError` of a policy denial included, since it is an ordinary
exception class. -/
def inlineExitCode : ExecOutcome → Nat
  | .success => 0
  | .policyViolation => 1
  | .runtimeError => 1

/-- A binding on the `os` module after sitecustomize runs: either the
original function (`real`) or the `_raise_attribute_error` stand-in, which
raises `AttributeError` for all arguments (`disabledStub`). -/
inductive OsBinding where
  | real
  | disabledStub
  deriving DecidableEq, Repr

/-- The standard-library process-spawning entry points bound on the `os`
module of a POSIX CPython 3 before sitecustomize runs: `os.system`,
`os.popen`, the eight-member `os.exec*` family and the eight-member
`os.spawn*` family. There is no attribute named plain `spawn` on `os`. -/
def osSpawnEntryPoints : List String :=
  ["system", "popen",
   "execl", "execle", "execlp", "execlpe",
   "execv", "execve", "execvp", "execvpe",
   "spawnl", "spawnle", "spawnlp", "spawnlpe",
   "spawnv", "spawnve", "spawnvp", "spawnvpe"]

/-- The attribute names sitecustomize.py tries to disable, in source order
(lines 30-47); each is guarded by `hasattr(os, name)` and, when present,
rebound to `_raise_attribute_error`. Note the entry spawn, which is not
an attribute of `os`, and the absence of execlpe, execvpe and of every
spawn-family member. -/
def sitecustomizeDisabledNames : List String :=
  ["system", "popen", "spawn",
   "execl", "execle", "execlp", "execv", "execve", "execvp"]

/-- The `os` attribute table restricted to the process-spawning entry
points, before sitecustomize runs: each is a real function. -/
def osAttrsInitial : List (String × OsBinding) :=
  osSpawnEntryPoints.map (fun n => (n, .real))

/-- The sitecustomize disabling block (lines 26-47), as a fold over the
guarded assignments: for each name in `sitecustomizeDisabledNames`, if the
attribute is present (`hasattr`), rebind it to the stand-in; otherwise the
assignment is skipped and the table is unchanged. -/
def applySitecustomize (attrs : List (String × OsBinding)) :
    List (String × OsBinding) :=
  sitecustomizeDisabledNames.foldl
    (fun acc n =>
      if (acc.find? (fun kv => kv.1 = n)).isSome then
        acc.map (fun kv => if kv.1 = n then (kv.1, .disabledStub) else kv)
      else acc)
    attrs

/-- The `os` attribute table after the Capability Gate (sitecustomize)
installs. -/
def osAttrsAfter : List (String × OsBinding) :=
  applySitecustomize osAttrsInitial

/-- Look up an `os` attribute after install; `none` means the attribute
does not exist at all (the binding was removed or never present). -/
def osLookup (name : String) : Option OsBinding :=
  (osAttrsAfter.find? (fun kv => kv.1 = name)).map (fun kv => kv.2)

/-- Claim C1: every request for an identifier in the policy's `blocked`
collection raises `ImportError` (the `CapabilityDenied` outcome), at every
position of every request sequence — hence regardless of how many times it
is requested and in what order relative to other requests. -/
theorem blocked_always_denied (p : Policy) (reqs : List String) (i : Nat)
    (name : String) (hb : name ∈ p.blocked) (hi : reqs[i]? = some name) :
    (runRequests p reqs)[i]? = some .denied := by
  simp only [runRequests, List.getElem?_map, hi, Option.map_some]
  simp [find_spec, hb]

/-- Witness for C1: with policy blocked = [os], the third request of the
sequence [sys, os, os] — a repeated request, after another module — is
still denied. -/
theorem blocked_always_denied_witness :
    (runRequests ⟨["os"], []⟩ ["sys", "os", "os"])[2]? = some .denied :=
  blocked_always_denied ⟨["os"], []⟩ ["sys", "os", "os"] 2 "os"
    (by decide) (by decide)

/-- Counterexample to claim C2: with policy warning = [pickle], the request
sequence [pickle, pickle] prints two warning audit records, not one — the
source prints on every call (it keeps no per-capability state), so the
second request does not emit none as the claim states. -/
theorem warn_every_request_counterexample :
    auditRecordCount ⟨[], ["pickle"]⟩ ["pickle", "pickle"] = 2 := by decide

/-- Claim C2 as amended: for an identifier in `warning` and not in
`blocked`, every `find_spec` request for it — first and subsequent alike —
emits one audit record (outcome `allowWarn`, which also returns `None`,
i.e. succeeds); the audit fires per request, not once per process. -/
theorem warn_every_request (p : Policy) (reqs : List String) (i : Nat)
    (name : String) (hw : name ∈ p.warning) (hb : name ∉ p.blocked)
    (hi : reqs[i]? = some name) :
    (runRequests p reqs)[i]? = some .allowWarn := by
  simp only [runRequests, List.getElem?_map, hi, Option.map_some]
  simp [find_spec, hw, hb]

/-- Witness for amended C2: with policy warning = [pickle], the second
request of [pickle, pickle] again has the warn-and-allow outcome. -/
theorem warn_every_request_witness :
    (runRequests ⟨[], ["pickle"]⟩ ["pickle", "pickle"])[1]? =
      some .allowWarn :=
  warn_every_request ⟨[], ["pickle"]⟩ ["pickle", "pickle"] 1 "pickle"
    (by decide) (by decide) (by decide)

/-- Counterexample to claim C3: a well-formed policy document whose
`blocked` and `warning` collections share the identifier os loads
successfully — the load step performs no disjointness validation, so no
`PolicyLoadError` is raised and the sandbox starts. -/
theorem load_overlap_succeeds :
    loadRestrictedModules (.doc overlapPolicy) = .ok overlapPolicy ∧
    "os" ∈ overlapPolicy.blocked ∧ "os" ∈ overlapPolicy.warning := by
  refine ⟨rfl, ?_, ?_⟩ <;> decide

/-- Claim C3 as amended: policy loading fails only when the source is
unreadable or not valid JSON; any well-formed document loads successfully
with no validation of its fields — in particular a document violating the
disjointness invariant blocked ∩ warning = ∅ still loads and the sandbox
starts. -/
theorem load_no_validation (p : Policy) :
    loadRestrictedModules (.doc p) = .ok p ∧
    loadRestrictedModules .unreadable = .error "PolicyLoadError" :=
  ⟨rfl, rfl⟩

/-- Witness for amended C3: a concrete well-formed document with
blocked = [os] and warning = [sys] loads successfully. -/
theorem load_no_validation_witness :
    loadRestrictedModules (.doc ⟨["os"], ["sys"]⟩) =
      .ok (⟨["os"], ["sys"]⟩ : Policy) ∧
    loadRestrictedModules .unreadable = .error "PolicyLoadError" :=
  load_no_validation ⟨["os"], ["sys"]⟩

/-- Counterexample to claim C4: when the setrlimit calls fail
(`limOk = false`), the inline-mode wrapper run records the warning-only
`applyLimits false` event and still reaches `execUntrusted` — the failure
is not fatal and untrusted code executes anyway. -/
theorem limiter_failure_not_fatal :
    Event.applyLimits false ∈ wrapperRun ["-c", "print(1)"] false true ∧
    Event.execUntrusted (.inline "print(1)") ∈
      wrapperRun ["-c", "print(1)"] false true := by
  constructor <;> decide

/-- Claim C4 as amended: a resource-limiter failure is reported only as a
stderr warning and is not fatal — the wrapper proceeds to execute exactly
the same untrusted code as when ceiling application succeeds, in every
invocation mode. -/
theorem limiter_failure_continues (argvTail : List String)
    (scriptExists : Bool) :
    execEvents (wrapperRun argvTail false scriptExists) =
      execEvents (wrapperRun argvTail true scriptExists) := by
  cases argvTail with
  | nil => rfl
  | cons a1 rest =>
    simp only [wrapperRun]
    split
    · cases rest <;> rfl
    · split <;> rfl

/-- Witness for amended C4: in script mode on an existing path job.py, the
run with failed ceiling application executes the same untrusted code as
the run with successful ceiling application. -/
theorem limiter_failure_continues_witness :
    execEvents (wrapperRun ["job.py"] false true) =
      execEvents (wrapperRun ["job.py"] true true) :=
  limiter_failure_continues ["job.py"] true

/-- Counterexample to claim C5: after the sitecustomize disabling block
runs, `os.spawnl` — a member of the `os.spawn*` process-spawning family —
is still bound to its real implementation, not to the stand-in that raises
`AttributeError`: the guard `hasattr(os, 'spawn')` never fires because `os`
has no attribute named plain spawn, and no spawn-family member (nor
execlpe or execvpe) appears in the disabling block, while `os.system` is
correctly replaced. -/
theorem spawn_family_not_disabled :
    osLookup "spawnl" = some .real ∧
    osLookup "spawnv" = some .real ∧
    osLookup "execlpe" = some .real ∧
    osLookup "execvpe" = some .real ∧
    osLookup "system" = some .disabledStub ∧
    "spawnl" ∈ osSpawnEntryPoints := by
  refine ⟨?_, ?_, ?_, ?_, ?_, ?_⟩ <;> decide

/-- Counterexample to claim C6: when ceiling application fails
(`limOk = false`), the script-mode run executes untrusted code even though
no successful `applyLimits true` event ever occurred — untrusted code runs
in a state where the ceilings are absent. -/
theorem ceilings_absent_during_exec :
    Event.execUntrusted (.script "job.py") ∈
      wrapperRun ["job.py"] false true ∧
    Event.applyLimits true ∉ wrapperRun ["job.py"] false true := by
  constructor <;> decide

/-- Claim C6 as amended: in every invocation mode, the policy load, the
Capability Gate installation and the ceiling-application step are the
first three events of the run, so both the gate install and the
`set_resource_limits` call precede any untrusted-code execution (which can
only occur from index 3 on); the gate is therefore never absent while
untrusted code runs — but when the ceiling application fails, untrusted
code still runs with the ceilings absent (see C4). -/
theorem gate_before_exec (argvTail : List String) (limOk scriptExists : Bool)
    (i : Nat) (s : CodeSource)
    (h : (wrapperRun argvTail limOk scriptExists)[i]? =
      some (.execUntrusted s)) :
    3 ≤ i ∧ (wrapperRun argvTail limOk scriptExists).take 3 =
      [.policyLoad, .gateInstall, .applyLimits limOk] := by
  refine ⟨?_, by simp [wrapperRun]⟩
  by_contra hlt
  push_neg at hlt
  interval_cases i <;> simp [wrapperRun] at h

/-- Witness for amended C6: in inline mode with the snippet print(1), the
execution event sits at index 3, after the three setup events. -/
theorem gate_before_exec_witness :
    3 ≤ 3 ∧ (wrapperRun ["-c", "print(1)"] true true).take 3 =
      [.policyLoad, .gateInstall, .applyLimits true] :=
  gate_before_exec ["-c", "print(1)"] true true 3 (.inline "print(1)")
    (by decide)

/-- Counterexample to claim C7: on a nonexistent script path the wrapper
does print an error and exit with code 1, but the full trace shows the
gate installation and the ceiling application happening before the
failure, not after it — the `NotFound` failure does not precede the
ceiling/Gate setup, because both run at module top level before argv is
examined. -/
theorem notfound_after_setup :
    wrapperRun ["missing.py"] true false =
      [.policyLoad, .gateInstall, .applyLimits true,
       .printToStderr, .exitCode 1] ∧
    Event.gateInstall ∈ (wrapperRun ["missing.py"] true false).take 3 ∧
    Event.applyLimits true ∈ (wrapperRun ["missing.py"] true false).take 3 := by
  refine ⟨?_, ?_, ?_⟩ <;> decide

/-- Claim C7 as amended: in script-file mode with an absent path, the
wrapper prints a not-found error to stderr and exits with code 1, and no
untrusted code executes; however the Capability Gate install and the
ceiling application are performed before the existence check (at process
start), not skipped by the failure. -/
theorem notfound_exit_one (path : String) (rest : List String)
    (limOk : Bool) (hp : path ≠ "-c") :
    wrapperRun (path :: rest) limOk false =
      [.policyLoad, .gateInstall, .applyLimits limOk,
       .printToStderr, .exitCode 1] := by
  simp [wrapperRun, hp]

/-- Witness for amended C7: the concrete run on the absent path
missing.py, with ceilings applying successfully. -/
theorem notfound_exit_one_witness :
    wrapperRun ["missing.py"] true false =
      [.policyLoad, .gateInstall, .applyLimits true,
       .printToStderr, .exitCode 1] :=
  notfound_exit_one "missing.py" [] true (by decide)

/-- Counterexample to claim C8: a snippet that dies on a policy violation
(the gate's `ImportError`) and a snippet that dies on an ordinary runtime
error produce the same exit code, 1 — there is no distinguished non-zero
exit code class for policy violations. -/
theorem policy_violation_exit_not_distinguished :
    inlineExitCode .policyViolation = inlineExitCode .runtimeError ∧
    inlineExitCode .policyViolation = 1 := by
  constructor <;> rfl

/-- Claim C8 as amended: in inline-snippet mode the exit code reflects the
snippet's own success or failure — 0 on success, 1 on any uncaught
exception — but a policy-violation failure shares the same exit code
class, 1, with ordinary runtime errors rather than a distinguished one. -/
theorem inline_exit_code_classes :
    inlineExitCode .success = 0 ∧
    inlineExitCode .runtimeError = 1 ∧
    inlineExitCode .policyViolation = inlineExitCode .runtimeError := by
  refine ⟨rfl, rfl, rfl⟩

/-- Claim C9: the ceilings are the fixed constants cpu = 300 seconds,
virtual memory = 2^30 bytes, file/output size = 100 * 2^20 bytes, and for
each ceiling the soft limit equals the hard limit — so a later
`setrlimit` by the untrusted code cannot raise its own ceiling. -/
theorem resource_limits_values :
    set_resource_limits =
      [("RLIMIT_CPU", ⟨300, 300⟩),
       ("RLIMIT_AS", ⟨2 ^ 30, 2 ^ 30⟩),
       ("RLIMIT_FSIZE", ⟨100 * 2 ^ 20, 100 * 2 ^ 20⟩)] ∧
    (set_resource_limits.all (fun e => e.2.soft = e.2.hard)) = true := by
  constructor <;> decide

/-- Claim C10: the blocked check takes precedence over the warning check —
an identifier in both collections is denied (raises `ImportError`) and
emits no warning audit record (only the `allowWarn` outcome prints one);
and any identifier not in `blocked` gets a `None`-returning outcome
(`allowWarn` or `allow`), delegating resolution to the normal import
machinery. -/
theorem blocked_precedence (p : Policy) (name : String) :
    (name ∈ p.blocked → name ∈ p.warning → find_spec p name = .denied) ∧
    (name ∉ p.blocked →
      find_spec p name = .allowWarn ∨ find_spec p name = .allow) := by
  constructor
  · intro hb _
    simp [find_spec, hb]
  · intro hb
    simp only [find_spec, if_neg hb]
    by_cases hw : name ∈ p.warning
    · exact Or.inl (by simp [hw])
    · exact Or.inr (by simp [hw])

/-- Witness for C10: with blocked = warning = [os], the request for os
is denied (and, not being `allowWarn`, prints no warning line). -/
theorem blocked_precedence_witness :
    find_spec overlapPolicy "os" = .denied :=
  (blocked_precedence overlapPolicy "os").1 (by decide) (by decide)

end LLMSafeSpace
